import Mathlib

/-!
Shallow embedding of `src/py/id/idd1.py`, a CLI worker registry backed by a
SQLite file with two tables (`people`, `numbers`).  Rows are modelled as Lean
structures, the database file as lists of rows plus the AUTOINCREMENT
sequence counters, and each Python function as a Lean function on that state.
A Python `sqlite3` exception aborts the transaction before `conn.commit()`,
so a failing operation is modelled as `none` / `Except.error` and the
persisted state stays what it was.
-/

/-- A row of table `people(human_id INTEGER PRIMARY KEY AUTOINCREMENT,
human_name TEXT NOT NULL, human_bd TEXT NOT NULL)`. -/
structure Person where
  human_id : Nat
  human_name : String
  human_bd : String
deriving DecidableEq, Repr

/-- A row of table `numbers(human_id INTEGER PRIMARY KEY AUTOINCREMENT,
phone_number INTEGER NOT NULL)`. -/
structure NumberRow where
  human_id : Nat
  phone_number : Int
deriving DecidableEq, Repr

/-- The row contents of the database file: the two tables in insertion
(rowid) order, plus the `sqlite_sequence` counter of each AUTOINCREMENT
primary key (the largest id ever committed). -/
structure DB where
  people : List Person
  numbers : List NumberRow
  peopleSeq : Nat
  numbersSeq : Nat
deriving DecidableEq, Repr

/-- A database file with no rows (the state right after `create_db` made the
empty tables). -/
def emptyDB : DB := ⟨[], [], 0, 0⟩

/-- Statement `INSERT INTO numbers (human_id, phone_number) VALUES (?, ?)` with an
explicit primary-key value (idd1.py lines 113-119).  `phone_number` is
declared `NOT NULL`, so binding Python `None` (an omitted `--number`) raises
`IntegrityError`; `human_id` is the INTEGER PRIMARY KEY, so a duplicate id
raises `IntegrityError: UNIQUE constraint failed: numbers.human_id`.
An explicit id larger than the sequence counter advances the counter. -/
def insertNumber (s : DB) (hid : Nat) (num : Option Int) : Option DB :=
  match num with
  | none => none
  | some v =>
    if s.numbers.any (fun r => r.human_id == hid) then none
    else some { s with numbers := s.numbers ++ [⟨hid, v⟩],
                       numbersSeq := max s.numbersSeq hid }

/-- Function `add_worker` (idd1.py lines 80-121): `SELECT human_id FROM people WHERE
human_name = ?`, `fetchone`; if no row, `INSERT INTO people (human_name,
human_bd)` with the next AUTOINCREMENT id and take `lastrowid`, else reuse
the found id; then insert the phone number; `conn.commit()` at the end.
`none` means an exception was raised before the commit, in which case the
connection is closed with the transaction uncommitted (rolled back). -/
def add_worker (s : DB) (name : String) (number : Option Int) (birthday : String) :
    Option DB :=
  match s.people.find? (fun p => p.human_name == name) with
  | none =>
    let worker_id := s.peopleSeq + 1
    let s1 : DB := { s with people := s.people ++ [⟨worker_id, name, birthday⟩],
                            peopleSeq := worker_id }
    insertNumber s1 worker_id number
  | some row => insertNumber s row.human_id number

/-- The state persisted in the file after `add_worker` runs: the committed
state on success, the unchanged previous state when the operation raised
before `conn.commit()` (uncommitted changes are discarded when the
connection goes away). -/
def add_worker_run (s : DB) (name : String) (number : Option Int) (birthday : String) :
    DB :=
  (add_worker s name number birthday).getD s

/-- A flat result record `{"name": ..., "birthday": ..., "number": ...}` as
built by `select_all` and `find_worker`. -/
structure WorkerRec where
  name : String
  birthday : String
  number : Int
deriving DecidableEq, Repr

/-- The joined row set of `FROM numbers INNER JOIN people ON
people.human_id = numbers.human_id`: every pair of a `numbers` row and a
`people` row with the same `human_id`, scanning `numbers` in rowid order. -/
def joinRows (s : DB) : List (Person × NumberRow) :=
  s.numbers.flatMap (fun n =>
    (s.people.filter (fun p => p.human_id == n.human_id)).map (fun p => (p, n)))

/-- Build the result dict from a joined pair: columns `people.human_name`,
`people.human_bd` and the phone value of the `numbers` row. -/
def recOf (pr : Person × NumberRow) : WorkerRec :=
  ⟨pr.1.human_name, pr.1.human_bd, pr.2.phone_number⟩

/-- The declared columns of table `numbers`. -/
def numbersCols : List String := ["human_id", "phone_number"]

/-- Statement compilation of a `numbers.<c>` result column: sqlite3 checks
the column name against the schema when the statement is prepared, before
any row is read, and raises `OperationalError: no such column` for an
unknown name. -/
def compileNumbersCol (c : String) : Except String (NumberRow → Int) :=
  if c = "human_id" then .ok (fun r => Int.ofNat r.human_id)
  else if c = "phone_number" then .ok (fun r => r.phone_number)
  else .error ("no such column: numbers." ++ c)

/-- Function `select_all` (idd1.py lines 124-143): `SELECT people.human_name,
people.human_bd, numbers.phone FROM numbers INNER JOIN people ON
people.human_id = numbers.human_id`.  The SQL text asks for the `numbers`
column named `phone`. -/
def select_all (s : DB) : Except String (List WorkerRec) :=
  (compileNumbersCol "phone").map (fun getCol =>
    (joinRows s).map (fun pr => ⟨pr.1.human_name, pr.1.human_bd, getCol pr.2⟩))

/-- SQLite default `LIKE` folds the 26 ASCII letters to lower case before
comparing; all other characters compare as themselves. -/
def lowerChar (c : Char) : Char :=
  if 'A' ≤ c ∧ c ≤ 'Z' then Char.ofNat (c.toNat + 32) else c

/-- SQLite `LIKE` pattern matching on character lists: `%` matches any
sequence of characters (tried as every possible split of the remaining
text), `_` matches exactly one character, any other pattern character
matches a text character equal to it up to ASCII case folding. -/
def likeMatchAux : List Char → List Char → Bool
  | [], s => s.isEmpty
  | p :: ps, s =>
    if p == '%' then
      (List.range (s.length + 1)).any (fun k => likeMatchAux ps (s.drop k))
    else
      match s with
      | [] => false
      | c :: cs =>
        if p == '_' then likeMatchAux ps cs
        else lowerChar p == lowerChar c && likeMatchAux ps cs

/-- Function `find_worker` (idd1.py lines 146-173): the same join as `select_all`
but selecting the existing column `numbers.phone_number`, filtered by
`WHERE people.human_name LIKE ? || '%'` — the bound query string with a
literal `%` appended, matched by SQLite `LIKE`.  An empty row set is
returned as the empty list. -/
def find_worker (s : DB) (q : String) : List WorkerRec :=
  let rows := (joinRows s).filter
    (fun pr => likeMatchAux (q.data ++ ['%']) pr.1.human_name.data)
  if rows.length = 0 then [] else rows.map recOf

/-- Pad on the right with spaces to width `w` (Python `{:<w}`); a longer
value is left as is. -/
def padRight (w : Nat) (s : String) : String :=
  s ++ String.mk (List.replicate (w - s.length) ' ')

/-- Centre within width `w` (Python `{:^w}`): the extra space, if odd, goes
to the right; a longer value is left as is. -/
def padCenter (w : Nat) (s : String) : String :=
  let total := w - s.length
  let left := total / 2
  String.mk (List.replicate left ' ') ++ s ++ String.mk (List.replicate (total - left) ' ')

/-- The border line `"+-{}-+-{}-+-{}-+-{}-+"` filled with 4, 30, 15 and 15
dashes. -/
def borderLine : String :=
  "+-" ++ String.mk (List.replicate 4 '-') ++ "-+-" ++ String.mk (List.replicate 30 '-')
    ++ "-+-" ++ String.mk (List.replicate 15 '-') ++ "-+-"
    ++ String.mk (List.replicate 15 '-') ++ "-+"

/-- The header row of the table. -/
def headerLine : String :=
  "| " ++ padCenter 4 "№" ++ " | " ++ padCenter 30 "Фамилия и имя" ++ " | "
    ++ padCenter 15 "Номер" ++ " | " ++ padCenter 15 "День рождения" ++ " |"

/-- One data row: 1-based index centred in 4, name left-aligned in 30,
number left-aligned in 15, birthday left-aligned in 15. -/
def rowLine (idx : Nat) (w : WorkerRec) : String :=
  "| " ++ padCenter 4 (toString idx) ++ " | " ++ padRight 30 w.name ++ " | "
    ++ padRight 15 (toString w.number) ++ " | " ++ padRight 15 w.birthday ++ " |"

/-- Function `display_workers` (idd1.py lines 11-48) as the list of lines printed to
stdout: for a non-empty list, a border, the header, a border, then each row
followed by a border; for an empty list, only the literal message
`"Список пуст."`. -/
def display_workers : List WorkerRec → List String
  | [] => ["Список пуст."]
  | w :: ws =>
    borderLine :: headerLine :: borderLine ::
      ((w :: ws).enumFrom 1).flatMap (fun iw => [rowLine iw.1 iw.2, borderLine])

/-- A table definition in the schema: its name and the column/constraint
declaration lines of its `CREATE TABLE` statement. -/
structure TableSchema where
  name : String
  decl : List String
deriving DecidableEq, Repr

/-- The `CREATE TABLE IF NOT EXISTS numbers (...)` schema. -/
def numbersSchema : TableSchema :=
  ⟨"numbers",
   ["human_id INTEGER PRIMARY KEY AUTOINCREMENT",
    "phone_number INTEGER NOT NULL"]⟩

/-- The `CREATE TABLE IF NOT EXISTS people (...)` schema. -/
def peopleSchema : TableSchema :=
  ⟨"people",
   ["human_id INTEGER PRIMARY KEY AUTOINCREMENT",
    "human_name TEXT NOT NULL",
    "human_bd TEXT NOT NULL",
    "FOREIGN KEY(human_id) REFERENCES numbers(human_id)"]⟩

/-- Statement `CREATE TABLE IF NOT EXISTS`: append the table unless one of that name
already exists. -/
def createTableIfNotExists (ts : List TableSchema) (t : TableSchema) : List TableSchema :=
  if ts.any (fun x => x.name == t.name) then ts else ts ++ [t]

/-- The whole database file: its table schemas in creation order and its
row data. -/
structure DBFile where
  schemas : List TableSchema
  data : DB
deriving DecidableEq, Repr

/-- A freshly created, still empty database file (sqlite creates the file
on first connect). -/
def emptyFile : DBFile := ⟨[], emptyDB⟩

/-- Function `create_db` (idd1.py lines 51-77): create the `numbers` table if
absent, then the `people` table if absent.  DDL statements autocommit in
Python's sqlite3 (no transaction is opened for them), so the schemas
persist even though the function never calls `commit`.  Row data is
untouched. -/
def create_db (f : DBFile) : DBFile :=
  { f with schemas :=
      createTableIfNotExists (createTableIfNotExists f.schemas numbersSchema) peopleSchema }

-- ### Command dispatch

/-- The outcome of `argparse` on one command line, as main consumes it.
`noCommand` is a command line with no subcommand at all: `parse_args`
yields `Namespace(command=None)` which has no `db` attribute, because
`--db` is declared only on the subparser parent.  `unknownCommand` is a
command-line token that is not one of `add`/`display`/`find`: the parser
itself rejects it with a usage error on stderr and `SystemExit(2)` before
`main` resumes.  The recognised commands carry the options their subparser
guarantees (`--number` is optional, hence `Option Int`); the `--db` path is
left implicit since one invocation touches a single file. -/
inductive Invocation where
  | noCommand : Invocation
  | unknownCommand : String → Invocation
  | addCmd : String → Option Int → String → Invocation
  | displayCmd : Invocation
  | findCmd : String → Invocation
deriving DecidableEq, Repr

/-- The observable result of one process run: the exit code, the lines
printed to stdout, and the state of the database file afterwards.
Usage errors and exception tracebacks go to stderr, not stdout. -/
structure MainResult where
  exitCode : Nat
  stdoutLines : List String
  file : DBFile
deriving DecidableEq, Repr

/-- Function `main` (idd1.py lines 176-268) given the parsed command line.  An
unrecognised command never reaches the body (argparse exits with code 2).
With no command, line 257 `db_path = Path(args.db)` raises
`AttributeError` — the namespace has no `db` — so the process dies with
exit code 1 before `create_db` runs.  Otherwise the schema is ensured and
the command dispatched; an uncaught sqlite exception in `add_worker` or
`select_all` exits with code 1, keeping the schema (autocommitted DDL) but
not the rolled-back row changes. -/
def mainRun (f : DBFile) : Invocation → MainResult
  | .unknownCommand _ => ⟨2, [], f⟩
  | .noCommand => ⟨1, [], f⟩
  | .addCmd name number birthday =>
    let f1 := create_db f
    match add_worker f1.data name number birthday with
    | some d => ⟨0, [], { f1 with data := d }⟩
    | none => ⟨1, [], f1⟩
  | .displayCmd =>
    let f1 := create_db f
    match select_all f1.data with
    | .ok recs => ⟨0, display_workers recs, f1⟩
    | .error _ => ⟨1, [], f1⟩
  | .findCmd name =>
    let f1 := create_db f
    ⟨0, display_workers (find_worker f1.data name), f1⟩

-- ### Concrete states used by the witnesses and counterexamples

/-- The database rows after adding "Ann Lee" / 555 / "1990-01-01" to an
empty store. -/
def annState : DB := add_worker_run emptyDB "Ann Lee" (some 555) "1990-01-01"

/-- The database rows after adding the lower-case "smith" / 111 /
"1990-01-01" to an empty store. -/
def smithState : DB := add_worker_run emptyDB "smith" (some 111) "1990-01-01"

-- ### Helper lemmas

/-- A created table is present afterwards. -/
theorem createTable_any_self (ts : List TableSchema) (t : TableSchema) :
    (createTableIfNotExists ts t).any (fun x => x.name == t.name) = true := by
  unfold createTableIfNotExists
  by_cases h : ts.any (fun x => x.name == t.name) = true
  · simp [h]
  · simp [h, List.any_append]

/-- Creating a further table preserves any already-present table. -/
theorem createTable_any_mono (ts : List TableSchema) (t : TableSchema)
    (q : TableSchema → Bool) (h : ts.any q = true) :
    (createTableIfNotExists ts t).any q = true := by
  unfold createTableIfNotExists
  split
  · exact h
  · simp [List.any_append, h]

/-- Creating a table that already exists is a no-op. -/
theorem createTable_of_any (ts : List TableSchema) (t : TableSchema)
    (h : ts.any (fun x => x.name == t.name) = true) :
    createTableIfNotExists ts t = ts := by
  unfold createTableIfNotExists
  simp [h]

/-- Running `create_db` twice is the same as running it once. -/
theorem create_db_create_db (f : DBFile) : create_db (create_db f) = create_db f := by
  have h1 : (createTableIfNotExists (createTableIfNotExists f.schemas numbersSchema)
      peopleSchema).any (fun x => x.name == numbersSchema.name) = true :=
    createTable_any_mono _ _ _ (createTable_any_self f.schemas numbersSchema)
  have h2 : (createTableIfNotExists (createTableIfNotExists f.schemas numbersSchema)
      peopleSchema).any (fun x => x.name == peopleSchema.name) = true :=
    createTable_any_self _ peopleSchema
  unfold create_db
  rw [createTable_of_any _ _ h1, createTable_of_any _ _ h2]

/-- Iterating `create_db` at least once is the same as running it once. -/
theorem create_db_iterate (m : Nat) (f : DBFile) :
    create_db^[m + 1] f = create_db f := by
  induction m with
  | zero => simp
  | succ k ih =>
    rw [Function.iterate_succ_apply']
    rw [ih, create_db_create_db]

/-- The pattern `%` alone matches every string. -/
theorem likeMatchAux_percent (s : List Char) : likeMatchAux ['%'] s = true := by
  have h : likeMatchAux ['%'] s =
      (List.range (s.length + 1)).any (fun k => likeMatchAux [] (s.drop k)) := by
    simp [likeMatchAux]
  rw [h, List.any_eq_true]
  exact ⟨s.length, by simp [List.mem_range], by simp [likeMatchAux]⟩

/-- A member of the join comes from a `people` row of the state. -/
theorem mem_joinRows_people {s : DB} {pr : Person × NumberRow}
    (h : pr ∈ joinRows s) : pr.1 ∈ s.people := by
  unfold joinRows at h
  rw [List.mem_flatMap] at h
  obtain ⟨n, _, hpr⟩ := h
  rw [List.mem_map] at hpr
  obtain ⟨p, hp, rfl⟩ := hpr
  exact (List.mem_filter.mp hp).1

/-- Rewriting `find_worker` as the join filtered by the LIKE pattern, mapped to
records; the explicit empty-row-set branch of the source coincides with
the general one. -/
theorem find_worker_eq_filterMap (s : DB) (q : String) :
    find_worker s q = ((joinRows s).filter
      (fun pr => likeMatchAux (q.data ++ ['%']) pr.1.human_name.data)).map recOf := by
  unfold find_worker
  by_cases h : ((joinRows s).filter
      (fun pr => likeMatchAux (q.data ++ ['%']) pr.1.human_name.data)).length = 0
  · simp only [h, if_pos rfl]
    rw [List.length_eq_zero.mp h]
    rfl
  · simp only [if_neg h]

/-- A wildcard-free pattern followed by `%` matches exactly the strings
with that pattern as an ASCII-case-insensitive literal head. -/
theorem likeMatchAux_plain (q : List Char) (h : ∀ c ∈ q, c ≠ '%' ∧ c ≠ '_')
    (s : List Char) :
    likeMatchAux (q ++ ['%']) s = (q.map lowerChar).isPrefixOf (s.map lowerChar) := by
  induction q generalizing s with
  | nil =>
    rw [List.nil_append]
    simp [likeMatchAux_percent, List.isPrefixOf]
  | cons a q ih =>
    have ha := h a (List.mem_cons_self a q)
    have htail : ∀ c ∈ q, c ≠ '%' ∧ c ≠ '_' :=
      fun c hc => h c (List.mem_cons_of_mem a hc)
    cases s with
    | nil =>
      simp [likeMatchAux, List.isPrefixOf, beq_iff_eq, ha.1]
    | cons c cs =>
      rw [List.cons_append]
      have hstep : likeMatchAux (a :: (q ++ ['%'])) (c :: cs) =
          (lowerChar a == lowerChar c && likeMatchAux (q ++ ['%']) cs) := by
        simp [likeMatchAux, beq_iff_eq, ha.1, ha.2]
      rw [hstep, ih htail cs]
      simp [List.isPrefixOf]

-- ### The claims

/-- C9: `display_workers` applied to the empty list prints exactly the
literal empty-state message, with no border lines and no header. -/
theorem display_workers_empty : display_workers [] = ["Список пуст."] := rfl

/-- C10: `find_worker` with the empty query string returns every joined
name/birthday/number record of the store — the empty prefix matches every
name, so an empty find behaves as a full listing. -/
theorem find_worker_empty_query (s : DB) :
    find_worker s "" = (joinRows s).map recOf := by
  rw [find_worker_eq_filterMap]
  have hfilter : ((joinRows s).filter
      (fun pr => likeMatchAux (("" : String).data ++ ['%']) pr.1.human_name.data))
      = joinRows s := by
    apply List.filter_eq_self.mpr
    intro pr _
    exact likeMatchAux_percent _
  rw [hfilter]

/-- C1: `select_all` never returns the join — its SQL names the nonexistent
column `numbers.phone` (the real column is `phone_number`), so every
`display`, including the one right after adding "Ann Lee"/555/"1990-01-01"
to a fresh store, dies with `sqlite3.OperationalError` (exit 1) and prints
no row. -/
theorem select_all_no_such_column :
    (∀ s : DB, select_all s = Except.error "no such column: numbers.phone") ∧
    (mainRun (mainRun emptyFile (Invocation.addCmd "Ann Lee" (some 555) "1990-01-01")).file
        Invocation.displayCmd).exitCode = 1 ∧
    (mainRun (mainRun emptyFile (Invocation.addCmd "Ann Lee" (some 555) "1990-01-01")).file
        Invocation.displayCmd).stdoutLines = [] :=
  ⟨fun _ => rfl, rfl, rfl⟩

/-- C2: adding a second number under the existing exact name fails instead
of inserting a row — `numbers.human_id` is the INTEGER PRIMARY KEY, so the
second insert for person id 1 violates its UNIQUE constraint
(`sqlite3.IntegrityError`), and the rolled-back store still holds one
person and one number. -/
theorem add_worker_second_number_error :
    annState.people = [⟨1, "Ann Lee", "1990-01-01"⟩] ∧
    annState.numbers = [⟨1, 555⟩] ∧
    add_worker annState "Ann Lee" (some 777) "2000-05-05" = none ∧
    add_worker_run annState "Ann Lee" (some 777) "2000-05-05" = annState :=
  ⟨rfl, rfl, rfl, rfl⟩

/-- C4 counterexample: with no command the process dies on the missing
`db` attribute (exit 1), and with the unknown command "frobnicate" argparse
rejects the invocation (exit 2) — neither exits successfully. -/
theorem main_no_command_fails :
    (mainRun emptyFile Invocation.noCommand).exitCode ≠ 0 ∧
    (mainRun emptyFile (Invocation.unknownCommand "frobnicate")).exitCode ≠ 0 :=
  ⟨by decide, by decide⟩

/-- C4 amended: an absent or unrecognized command leaves the persisted
file unchanged and prints nothing to stdout, but the process exits
unsuccessfully — argparse rejects an unknown command with a usage error on
stderr (code 2), and an absent command crashes on the namespace's missing
`db` attribute before any storage access (code 1). -/
theorem main_no_or_unknown_command (f : DBFile) (tok : String) :
    (mainRun f Invocation.noCommand).file = f ∧
    (mainRun f Invocation.noCommand).stdoutLines = [] ∧
    (mainRun f Invocation.noCommand).exitCode ≠ 0 ∧
    (mainRun f (Invocation.unknownCommand tok)).file = f ∧
    (mainRun f (Invocation.unknownCommand tok)).stdoutLines = [] ∧
    (mainRun f (Invocation.unknownCommand tok)).exitCode ≠ 0 :=
  ⟨rfl, rfl, Nat.succ_ne_zero 0, rfl, rfl, Nat.succ_ne_zero 1⟩

/-- C6: `create_db` is idempotent — any number N ≥ 1 of calls produces the
same file as a single call, and on a fresh file the schema is exactly the
two tables `numbers` and `people` with their declared columns; the
function is total, so it never fails in the model. -/
theorem create_db_idempotent (f : DBFile) (n : Nat) (h : 1 ≤ n) :
    create_db^[n] f = create_db f ∧
    (create_db^[n] emptyFile).schemas = [numbersSchema, peopleSchema] := by
  obtain ⟨m, rfl⟩ := Nat.exists_eq_add_of_le h
  rw [Nat.add_comm 1 m]
  refine ⟨create_db_iterate m f, ?_⟩
  rw [create_db_iterate m emptyFile]
  rfl

/-- C6 witness: three calls on a fresh file equal one call, and the schema
is the two tables. -/
theorem create_db_idempotent_witness :
    create_db^[3] emptyFile = create_db emptyFile ∧
    (create_db^[3] emptyFile).schemas = [numbersSchema, peopleSchema] :=
  create_db_idempotent emptyFile 3 (by decide)

/-- C8: when no person's name matches the LIKE prefix pattern, the result
is the empty list — a normal value of the total query function, not an
error. -/
theorem find_worker_no_match (s : DB) (q : String)
    (h : ∀ p ∈ s.people, likeMatchAux (q.data ++ ['%']) p.human_name.data = false) :
    find_worker s q = [] := by
  rw [find_worker_eq_filterMap]
  have hnil : ((joinRows s).filter
      (fun pr => likeMatchAux (q.data ++ ['%']) pr.1.human_name.data)) = [] := by
    apply List.filter_eq_nil_iff.mpr
    intro pr hpr
    simp [h pr.1 (mem_joinRows_people hpr)]
  rw [hnil]
  rfl

/-- C8 witness: searching the Ann Lee store for the unmatched query "Zz"
yields the empty list. -/
theorem find_worker_no_match_witness : find_worker annState "Zz" = [] :=
  find_worker_no_match annState "Zz" (by decide)

/-- C3 counterexample: the store holds only the lower-case name "smith",
yet the query "Sm" returns that record — SQLite's default LIKE comparison
folds ASCII case, so the prefix match is not case-sensitive as claimed. -/
theorem find_worker_lowercase_matches :
    find_worker smithState "Sm" = [⟨"smith", "1990-01-01", 111⟩] := rfl

/-- C3 amended: for a query without the LIKE metacharacters `%` and `_`,
`find_worker` returns all and only the joined records whose name starts
with the query up to ASCII case folding (SQLite default LIKE is
case-insensitive on ASCII letters; metacharacter queries keep the engine's
pattern semantics). -/
theorem find_worker_case_insensitive (s : DB) (q : String)
    (h : ∀ c ∈ q.data, c ≠ '%' ∧ c ≠ '_') :
    find_worker s q = ((joinRows s).filter
      (fun pr => (q.data.map lowerChar).isPrefixOf
        (pr.1.human_name.data.map lowerChar))).map recOf := by
  rw [find_worker_eq_filterMap]
  congr 1
  apply List.filter_congr
  intro pr _
  rw [likeMatchAux_plain q.data h]

/-- C3 witness: on the lower-case "smith" store with the wildcard-free
query "Sm", the amended description evaluates to the record list that
`find_worker` returns. -/
theorem find_worker_case_insensitive_witness :
    find_worker smithState "Sm" = ((joinRows smithState).filter
      (fun pr => (("Sm" : String).data.map lowerChar).isPrefixOf
        (pr.1.human_name.data.map lowerChar))).map recOf :=
  find_worker_case_insensitive smithState "Sm" (by decide)

/-- C7: adding a worker whose name is not yet in the store inserts exactly
one new Person row — with the given name and birthday, under the next
generated id — and exactly one new PhoneNumber row linked to that id.  The
second hypothesis is the invariant every state committed by this program
satisfies: a committed number row's id never exceeds the people sequence
counter. -/
theorem add_worker_new_name (s : DB) (name : String) (v : Int) (birthday : String)
    (hname : ∀ p ∈ s.people, p.human_name ≠ name)
    (hseq : ∀ r ∈ s.numbers, r.human_id ≤ s.peopleSeq) :
    add_worker s name (some v) birthday =
      some { people := s.people ++ [⟨s.peopleSeq + 1, name, birthday⟩],
             numbers := s.numbers ++ [⟨s.peopleSeq + 1, v⟩],
             peopleSeq := s.peopleSeq + 1,
             numbersSeq := max s.numbersSeq (s.peopleSeq + 1) } := by
  have hfind : s.people.find? (fun p => p.human_name == name) = none := by
    rw [List.find?_eq_none]
    intro p hp
    simp only [beq_iff_eq]
    exact hname p hp
  have hany : (s.numbers.any (fun r => r.human_id == s.peopleSeq + 1)) = false := by
    rw [List.any_eq_false]
    intro r hr
    simp only [beq_iff_eq]
    exact Nat.ne_of_lt (Nat.lt_succ_of_le (hseq r hr))
  simp only [add_worker, hfind, insertNumber]
  rw [if_neg (by rw [hany]; exact Bool.false_ne_true)]

/-- C7 witness: adding "Ann Lee" to the empty store creates exactly the
person row (id 1) and its number row. -/
theorem add_worker_new_name_witness :
    add_worker emptyDB "Ann Lee" (some 555) "1990-01-01" =
      some { people := [⟨1, "Ann Lee", "1990-01-01"⟩],
             numbers := [⟨1, 555⟩],
             peopleSeq := 1,
             numbersSeq := 1 } := by
  have h := add_worker_new_name emptyDB "Ann Lee" 555 "1990-01-01"
    (by intro p hp; simp [emptyDB] at hp) (by intro r hr; simp [emptyDB] at hr)
  simpa [emptyDB] using h

/-- C5: `add_worker` is atomic — either its single transaction commits, and
the persisted state then contains a person carrying the requested name
together with a number row linking that person's id to the given value, or
the operation raises before `conn.commit()` and the persisted state is
exactly the previous one.  No state with a newly inserted person but no
number is ever committed. -/
theorem add_worker_atomic (s : DB) (name : String) (number : Option Int)
    (birthday : String) :
    (add_worker s name number birthday = none ∧
      add_worker_run s name number birthday = s) ∨
    (∃ v p, number = some v ∧
      p ∈ (add_worker_run s name number birthday).people ∧
      p.human_name = name ∧
      (⟨p.human_id, v⟩ : NumberRow) ∈ (add_worker_run s name number birthday).numbers) := by
  cases hf : s.people.find? (fun p => p.human_name == name) with
  | none =>
    cases hnum : number with
    | none =>
      left
      refine ⟨?_, ?_⟩
      · simp [add_worker, hf, insertNumber]
      · simp [add_worker_run, add_worker, hf, insertNumber]
    | some v =>
      by_cases hdup : (s.numbers.any (fun r => r.human_id == s.peopleSeq + 1)) = true
      · left
        refine ⟨?_, ?_⟩
        · simp [add_worker, hf, insertNumber, hdup]
        · simp [add_worker_run, add_worker, hf, insertNumber, hdup]
      · right
        refine ⟨v, ⟨s.peopleSeq + 1, name, birthday⟩, rfl, ?_, rfl, ?_⟩
        · simp [add_worker_run, add_worker, hf, insertNumber, hdup]
        · simp [add_worker_run, add_worker, hf, insertNumber, hdup]
  | some row =>
    have hrow_mem : row ∈ s.people := List.mem_of_find?_eq_some hf
    have hrow_name : row.human_name = name := by
      have h := List.find?_some hf
      rwa [beq_iff_eq] at h
    cases hnum : number with
    | none =>
      left
      refine ⟨?_, ?_⟩
      · simp [add_worker, hf, insertNumber]
      · simp [add_worker_run, add_worker, hf, insertNumber]
    | some v =>
      by_cases hdup : (s.numbers.any (fun r => r.human_id == row.human_id)) = true
      · left
        refine ⟨?_, ?_⟩
        · simp [add_worker, hf, insertNumber, hdup]
        · simp [add_worker_run, add_worker, hf, insertNumber, hdup]
      · right
        refine ⟨v, row, rfl, ?_, hrow_name, ?_⟩
        · simp only [add_worker_run, add_worker, hf, insertNumber]
          rw [if_neg hdup]
          simpa using hrow_mem
        · simp only [add_worker_run, add_worker, hf, insertNumber]
          rw [if_neg hdup]
          simp

-- ### The reachability invariant behind the C7 hypothesis

/-- Every state this program ever commits satisfies: person ids and number
row ids never exceed the people sequence counter (people rows get ids
1..peopleSeq from AUTOINCREMENT, and number rows only ever receive an
existing or just-generated person id). -/
def SeqInv (s : DB) : Prop :=
  (∀ p ∈ s.people, p.human_id ≤ s.peopleSeq) ∧
  (∀ r ∈ s.numbers, r.human_id ≤ s.peopleSeq)

/-- The empty store satisfies the invariant. -/
theorem seqInv_empty : SeqInv emptyDB := by
  constructor
  · intro p hp
    simp [emptyDB] at hp
  · intro r hr
    simp [emptyDB] at hr

/-- The persisted state after any `add_worker` run keeps the invariant, so
it holds of every store this program can produce. -/
theorem seqInv_add_worker_run (s : DB) (name : String) (number : Option Int)
    (birthday : String) (h : SeqInv s) :
    SeqInv (add_worker_run s name number birthday) := by
  cases hf : s.people.find? (fun p => p.human_name == name) with
  | none =>
    cases number with
    | none => simpa [add_worker_run, add_worker, hf, insertNumber] using h
    | some v =>
      by_cases hdup : (s.numbers.any (fun r => r.human_id == s.peopleSeq + 1)) = true
      · simpa [add_worker_run, add_worker, hf, insertNumber, hdup] using h
      · have hrun : add_worker_run s name (some v) birthday =
            { people := s.people ++ [⟨s.peopleSeq + 1, name, birthday⟩],
              numbers := s.numbers ++ [⟨s.peopleSeq + 1, v⟩],
              peopleSeq := s.peopleSeq + 1,
              numbersSeq := max s.numbersSeq (s.peopleSeq + 1) } := by
          simp only [add_worker_run, add_worker, hf, insertNumber]
          rw [if_neg hdup]
          rfl
        rw [hrun]
        constructor
        · intro p hp
          rcases List.mem_append.mp hp with hold | hnew
          · exact Nat.le_succ_of_le (h.1 p hold)
          · rw [List.mem_singleton.mp hnew]
        · intro r hr
          rcases List.mem_append.mp hr with hold | hnew
          · exact Nat.le_succ_of_le (h.2 r hold)
          · rw [List.mem_singleton.mp hnew]
  | some row =>
    have hrow : row ∈ s.people := List.mem_of_find?_eq_some hf
    cases number with
    | none => simpa [add_worker_run, add_worker, hf, insertNumber] using h
    | some v =>
      by_cases hdup : (s.numbers.any (fun r => r.human_id == row.human_id)) = true
      · simpa [add_worker_run, add_worker, hf, insertNumber, hdup] using h
      · have hrun : add_worker_run s name (some v) birthday =
            { s with numbers := s.numbers ++ [⟨row.human_id, v⟩],
                     numbersSeq := max s.numbersSeq row.human_id } := by
          simp only [add_worker_run, add_worker, hf, insertNumber]
          rw [if_neg hdup]
          rfl
        rw [hrun]
        constructor
        · intro p hp
          exact h.1 p hp
        · intro r hr
          rcases List.mem_append.mp hr with hold | hnew
          · exact h.2 r hold
          · rw [List.mem_singleton.mp hnew]
            exact h.1 row hrow
